import Mathlib

/-!
Shallow embedding of the ShieldPay TrustFlow SDK core
(`src/sdk/TrustedDeviceManager.ts`, `src/sdk/QRCodeManager.ts`,
`src/sdk/SecurePaySDK.ts`, and the phone validation of
`src/components/DeviceRegistration.tsx`).

The browser `localStorage` keys used by the SDK are modelled as the fields
of a `Store` structure; every static method becomes a function threading
that state explicitly.  TypeScript optional fields (`f?: T`) become
`Option T` with `none` standing for an absent key / `undefined`; JavaScript
truthiness tests are modelled by explicit `jsTruthy*` helpers.  Clock reads
(`new Date()`) and randomness (`Math.random`) are passed in as parameters.
-/

namespace TrustFlow

/-- The `BiometricType` union `'face' | 'fingerprint' | 'none'`
(`TrustedDeviceManager.ts`).  The value `'none'` is spelled `bnone` to
avoid clashing with `Option.none`. -/
inductive BiometricType where
  | face
  | fingerprint
  | bnone
deriving DecidableEq, Repr

/-- The `DeviceInfo` structure of `DeviceFingerprint.ts`. -/
structure DeviceInfo where
  deviceId : String
  platform : String
  deviceName : String
  timestamp : String
deriving DecidableEq, Repr

/-- A `TrustedDevice` record as stored under the `trusted_devices` key.
`biometricType`, `biometricData` and `biometricVerified` are optional in
the TypeScript interface; `none` models an absent key (for
`biometricData`, also the explicit `null`). -/
structure TrustedDevice where
  deviceId : String
  platform : String
  deviceName : String
  timestamp : String
  name : String
  isCurrentDevice : Bool
  lastVerified : String
  phoneNumber : String
  biometricType : Option BiometricType
  biometricData : Option String
  biometricVerified : Option Bool
deriving DecidableEq, Repr

/-- A `Transaction` (`TrustedDeviceManager.ts`); `amount: number` is
modelled as a rational. -/
structure Transaction where
  id : String
  amount : ℚ
  currency : String
  timestamp : String
  recipient : String
deriving DecidableEq, Repr

/-- A `TransactionVerificationResult`.  `requiresBiometricVerification?`
is optional: `none` models the key being left out of the object literal. -/
structure TransactionVerificationResult where
  verified : Bool
  riskLevel : String
  reason : String
  recommendation : String
  requiresCallVerification : Bool
  requiresBiometricVerification : Option Bool
deriving DecidableEq, Repr

/-- The persistent and ambient state the SDK reads:
`trusted_device_id` (with the environment-derived platform and device
name used by `DeviceFingerprint.generateFingerprint`), the JSON list under
`trusted_devices`, the `current_device_registered` sentinel, and the
outstanding `verification_code`. -/
structure Store where
  deviceId : String
  platform : String
  deviceName : String
  trustedDevices : List TrustedDevice
  currentDeviceRegistered : Bool
  verificationCode : Option String
deriving DecidableEq, Repr

/-- An object passed to `addTrustedDevice`, keeping track of which keys
the object literal of the caller actually carries, so that the spread merge
`{...existing, ...device}` can be modelled exactly.  A `none` in
`biometricType` / `biometricVerified` means the key is absent; for
`biometricData`, `none` means absent while `some none` means the key is
present with value `null`. -/
structure DevicePatch where
  deviceId : String
  platform : String
  deviceName : String
  timestamp : String
  name : String
  isCurrentDevice : Bool
  lastVerified : String
  phoneNumber : String
  biometricType : Option BiometricType
  biometricData : Option (Option String)
  biometricVerified : Option Bool
deriving DecidableEq, Repr

/-- JavaScript truthiness of an optional boolean (`undefined` is falsy). -/
def jsTruthy : Option Bool → Bool
  | some b => b
  | none => false

/-- JavaScript truthiness of an optional string (`undefined`, `null` and
`''` are falsy). -/
def jsTruthyStr : Option String → Bool
  | some s => !(s == "")
  | none => false

/-- Evaluates `x || dflt` on an optional string. -/
def jsOrStr (s : Option String) (dflt : String) : String :=
  match s with
  | some s => if s == "" then dflt else s
  | none => dflt

/-- The pushed object when `addTrustedDevice` appends a new entry:
absent keys become `undefined` fields of the stored record. -/
def toDevice (p : DevicePatch) : TrustedDevice :=
  { deviceId := p.deviceId
    platform := p.platform
    deviceName := p.deviceName
    timestamp := p.timestamp
    name := p.name
    isCurrentDevice := p.isCurrentDevice
    lastVerified := p.lastVerified
    phoneNumber := p.phoneNumber
    biometricType := p.biometricType
    biometricData := p.biometricData.getD none
    biometricVerified := p.biometricVerified }

/-- The update branch of `addTrustedDevice`:
`{...existing, ...device, lastVerified: new Date().toISOString()}` —
keys present in `device` win, absent keys keep the existing value, and
`lastVerified` is refreshed. -/
def mergeDevice (existing : TrustedDevice) (p : DevicePatch) (now : String) : TrustedDevice :=
  { deviceId := p.deviceId
    platform := p.platform
    deviceName := p.deviceName
    timestamp := p.timestamp
    name := p.name
    isCurrentDevice := p.isCurrentDevice
    lastVerified := now
    phoneNumber := p.phoneNumber
    biometricType := match p.biometricType with
      | some bt => some bt
      | none => existing.biometricType
    biometricData := match p.biometricData with
      | some d => d
      | none => existing.biometricData
    biometricVerified := match p.biometricVerified with
      | some b => some b
      | none => existing.biometricVerified }

/-- The list transformation of `addTrustedDevice`: update the first entry
whose `deviceId` matches (`findIndex` + in-place assignment), else push. -/
def addToList (p : DevicePatch) (now : String) : List TrustedDevice → List TrustedDevice
  | [] => [toDevice p]
  | d :: ds =>
    if d.deviceId == p.deviceId then mergeDevice d p now :: ds
    else d :: addToList p now ds

/-- Embeds `TrustedDeviceManager.addTrustedDevice`. -/
def addTrustedDevice (p : DevicePatch) (now : String) (st : Store) : Store :=
  { st with trustedDevices := addToList p now st.trustedDevices }

/-- Embeds `DeviceFingerprint.generateFingerprint`. -/
def generateFingerprint (now : String) (st : Store) : DeviceInfo :=
  { deviceId := st.deviceId
    platform := st.platform
    deviceName := st.deviceName
    timestamp := now }

/-- Embeds `TrustedDeviceManager.getTrustedDevices` (the decoded list). -/
def getTrustedDevices (st : Store) : List TrustedDevice :=
  st.trustedDevices

/-- Embeds `TrustedDeviceManager.getCurrentDevice`. -/
def getCurrentDevice (st : Store) : Option TrustedDevice :=
  (getTrustedDevices st).find? (fun device => device.deviceId == st.deviceId)

/-- Embeds `TrustedDeviceManager.isCurrentDeviceRegistered`. -/
def isCurrentDeviceRegistered (st : Store) : Bool :=
  st.currentDeviceRegistered &&
    (getTrustedDevices st).any (fun device => device.deviceId == st.deviceId)

/-- The object literal built by `registerCurrentDevice`: the fingerprint
spread plus the explicit fields, carrying `biometricType: 'none'` and
`biometricData: null` but no `biometricVerified` key. -/
def registerPatch (deviceName : String) (phoneNumber : Option String)
    (now : String) (st : Store) : DevicePatch :=
  let deviceInfo := generateFingerprint now st
  { deviceId := deviceInfo.deviceId
    platform := deviceInfo.platform
    deviceName := deviceInfo.deviceName
    timestamp := deviceInfo.timestamp
    name := if deviceName == "" then deviceInfo.deviceName else deviceName
    isCurrentDevice := true
    lastVerified := now
    phoneNumber := jsOrStr phoneNumber ""
    biometricType := some BiometricType.bnone
    biometricData := some none
    biometricVerified := none }

/-- Embeds `TrustedDeviceManager.registerCurrentDevice`.  Returns the built
record together with the updated store. -/
def registerCurrentDevice (deviceName : String) (phoneNumber : Option String)
    (now : String) (st : Store) : TrustedDevice × Store :=
  let trustedDevice := registerPatch deviceName phoneNumber now st
  let st1 : Store := { st with currentDeviceRegistered := true }
  (toDevice trustedDevice, addTrustedDevice trustedDevice now st1)

/-- The `HIGH_VALUE_THRESHOLD` constant. -/
def HIGH_VALUE_THRESHOLD : ℚ := 10000

/-- Embeds `TrustedDeviceManager.verifyTransaction`. -/
def verifyTransaction (transaction : Transaction) (st : Store) :
    TransactionVerificationResult :=
  if !(isCurrentDeviceRegistered st) then
    { verified := false
      riskLevel := "high"
      reason := "Untrusted device"
      recommendation := "Block transaction"
      requiresCallVerification := false
      requiresBiometricVerification := none }
  else
    let currentDevice := getCurrentDevice st
    if currentDevice.bind TrustedDevice.biometricType ≠ some BiometricType.bnone
        ∧ jsTruthy (currentDevice.bind TrustedDevice.biometricVerified) = false then
      { verified := false
        riskLevel := "medium"
        reason := "Biometric verification required"
        recommendation := "Complete biometric verification"
        requiresCallVerification := false
        requiresBiometricVerification := some true }
    else if HIGH_VALUE_THRESHOLD ≤ transaction.amount then
      { verified := true
        riskLevel := "medium"
        reason := "High-value transaction requires additional verification"
        recommendation := "Verify via phone call"
        requiresCallVerification := true
        requiresBiometricVerification := none }
    else
      { verified := true
        riskLevel := "low"
        reason := "Trusted device"
        recommendation := "Allow transaction"
        requiresCallVerification := false
        requiresBiometricVerification := none }

/-- Embeds `TrustedDeviceManager.verifyBiometric`.  The `biometricData`
argument is received but, as in the demo source, never compared. -/
def verifyBiometric (biometricData : String) (st : Store) : Bool :=
  match getCurrentDevice st with
  | none => false
  | some currentDevice =>
    if jsTruthyStr currentDevice.biometricData = false
        ∨ currentDevice.biometricType = some BiometricType.bnone then false
    else true

/-- Embeds `TrustedDeviceManager.verifyTransactionWithBiometric`. -/
def verifyTransactionWithBiometric (transaction : Transaction)
    (biometricData : String) (st : Store) : TransactionVerificationResult :=
  if !(isCurrentDeviceRegistered st) then
    { verified := false
      riskLevel := "high"
      reason := "Untrusted device"
      recommendation := "Block transaction"
      requiresCallVerification := false
      requiresBiometricVerification := none }
  else if verifyBiometric biometricData st = false then
    { verified := false
      riskLevel := "high"
      reason := "Biometric verification failed"
      recommendation := "Block transaction"
      requiresCallVerification := false
      requiresBiometricVerification := none }
  else if HIGH_VALUE_THRESHOLD ≤ transaction.amount then
    { verified := true
      riskLevel := "medium"
      reason := "High-value transaction requires additional verification"
      recommendation := "Verify via phone call"
      requiresCallVerification := true
      requiresBiometricVerification := none }
  else
    { verified := true
      riskLevel := "low"
      reason := "Trusted device with verified biometrics"
      recommendation := "Allow transaction"
      requiresCallVerification := false
      requiresBiometricVerification := none }

/-- Embeds `TrustedDeviceManager.generateVerificationCode`; the
`Math.random()` draw is passed in as a natural number `r`, giving the
code `100000 + r % 900000`. -/
def generateVerificationCode (r : ℕ) (st : Store) : String × Store :=
  let code := toString (100000 + r % 900000)
  (code, { st with verificationCode := some code })

/-- Embeds `TrustedDeviceManager.verifyCode`. -/
def verifyCode (userEnteredCode : String) (st : Store) : Bool × Store :=
  match st.verificationCode with
  | none => (false, st)
  | some storedCode =>
    (storedCode == userEnteredCode, { st with verificationCode := none })

/-- Embeds `TrustedDeviceManager.removeTrustedDevice`. -/
def removeTrustedDevice (deviceId : String) (st : Store) : Bool × Store :=
  let devices := (getTrustedDevices st).filter (fun device => !(device.deviceId == deviceId))
  let st1 : Store := { st with trustedDevices := devices }
  let st2 : Store :=
    if deviceId == st.deviceId then { st1 with currentDeviceRegistered := false } else st1
  (true, st2)

/-- The decoded form of a QR payload (`QRCodeData` of `QRCodeManager.ts`),
after `JSON.parse(atob(...))`: `deviceInfo` may be missing, and
`expiresAt` is the parsed timestamp (`none` models a missing or invalid
date, for which the JavaScript comparison is falsy). -/
structure QRCodeData where
  deviceInfo : Option DeviceInfo
  sessionToken : String
  expiresAt : Option ℤ
deriving DecidableEq, Repr

/-- Embeds `QRCodeManager.parseQRCodeData`.  The base64/JSON decoding is
external; its result (or failure) is the `decoded` argument, and `now`
is the clock reading compared against `expiresAt`. -/
def parseQRCodeData (decoded : Option QRCodeData) (now : ℤ) : Option QRCodeData :=
  match decoded with
  | none => none
  | some d =>
    match d.expiresAt with
    | some t => if t < now then none else some d
    | none => some d

/-- Embeds `TrustedDeviceManager.linkDeviceFromQR`. -/
def linkDeviceFromQR (qrData : QRCodeData) (now : String) (st : Store) :
    Option TrustedDevice × Store :=
  match qrData.deviceInfo with
  | none => (none, st)
  | some info =>
    let trustedDevice : DevicePatch :=
      { deviceId := info.deviceId
        platform := info.platform
        deviceName := info.deviceName
        timestamp := info.timestamp
        name := info.platform ++ " Device"
        isCurrentDevice := false
        lastVerified := now
        phoneNumber := ""
        biometricType := none
        biometricData := none
        biometricVerified := none }
    (some (toDevice trustedDevice), addTrustedDevice trustedDevice now st)

/-- Embeds `SecurePaySDK.processQRCodeData`: parse, then link. -/
def processQRCodeData (decoded : Option QRCodeData) (now : ℤ) (nowStr : String)
    (st : Store) : Option TrustedDevice × Store :=
  match parseQRCodeData decoded now with
  | none => (none, st)
  | some parsedData => linkDeviceFromQR parsedData nowStr st

/-- Models `number.replace` stripping every non-digit, as in
`DeviceRegistration.tsx` `validatePhoneNumber`. -/
def stripNonDigits (s : String) : String :=
  String.mk (s.toList.filter Char.isDigit)

/-- The boolean outcome of `validatePhoneNumber` in
`DeviceRegistration.tsx`: empty input and inputs with fewer than 10
digits (after stripping non-digits) are rejected; this check runs in the
registration UI before `SecurePaySDK.registerCurrentDevice` is called. -/
def validatePhoneNumber (number : String) : Bool :=
  if number == "" then false
  else if (stripNonDigits number).length < 10 then false
  else true


/-! ### Concrete fixtures used by witnesses and counterexamples -/

/-- A registered current-device record with no biometric enrolled. -/
def dev0 : TrustedDevice :=
  { deviceId := "dev-1"
    platform := "Web"
    deviceName := "Web Browser"
    timestamp := "t0"
    name := "My Device"
    isCurrentDevice := true
    lastVerified := "t0"
    phoneNumber := "5551234567"
    biometricType := some BiometricType.bnone
    biometricData := none
    biometricVerified := none }

/-- A store in which the current device is registered and trusted. -/
def st0 : Store :=
  { deviceId := "dev-1"
    platform := "Web"
    deviceName := "Web Browser"
    trustedDevices := [dev0]
    currentDeviceRegistered := true
    verificationCode := none }

/-- A store with no registration at all. -/
def stEmpty : Store :=
  { deviceId := "dev-1"
    platform := "Web"
    deviceName := "Web Browser"
    trustedDevices := []
    currentDeviceRegistered := false
    verificationCode := none }

/-- A sample transaction of the given amount. -/
def tx (a : ℚ) : Transaction :=
  { id := "TXN-1"
    amount := a
    currency := "USD"
    timestamp := "t1"
    recipient := "John Doe" }

/-! ### Claims -/

/-- C1: on an untrusted current device, `verifyTransaction` blocks the
transaction with `verified = false`, `riskLevel = 'high'`, reason
`'Untrusted device'`, recommendation `'Block transaction'`, and neither
step-up flag set, regardless of the transaction. -/
theorem verifyTransaction_untrusted_blocks (t : Transaction) (st : Store)
    (h : isCurrentDeviceRegistered st = false) :
    verifyTransaction t st =
      { verified := false
        riskLevel := "high"
        reason := "Untrusted device"
        recommendation := "Block transaction"
        requiresCallVerification := false
        requiresBiometricVerification := none } := by
  simp [verifyTransaction, h]

/-- Witness for C1: the unregistered store with a small transaction. -/
theorem verifyTransaction_untrusted_blocks_witness :
    verifyTransaction (tx 5) stEmpty =
      { verified := false
        riskLevel := "high"
        reason := "Untrusted device"
        recommendation := "Block transaction"
        requiresCallVerification := false
        requiresBiometricVerification := none } :=
  verifyTransaction_untrusted_blocks (tx 5) stEmpty (by decide)

/-- C4: a verification code survives only one `verifyCode` attempt: after a
failed check with a wrong candidate, even the genuine code is rejected, and
any check with no outstanding code returns `false`. -/
theorem verifyCode_single_attempt (r : ℕ) (wrong : String) (st : Store)
    (h : wrong ≠ (generateVerificationCode r st).1) :
    (verifyCode wrong (generateVerificationCode r st).2).1 = false ∧
    (verifyCode (generateVerificationCode r st).1
        (verifyCode wrong (generateVerificationCode r st).2).2).1 = false ∧
    (∀ c st2, st2.verificationCode = none → (verifyCode c st2).1 = false) := by
  refine ⟨?_, ?_, ?_⟩
  · simp only [generateVerificationCode, verifyCode]
    simp only [beq_eq_false_iff_ne, ne_eq]
    exact fun hh => h hh.symm
  · simp [generateVerificationCode, verifyCode]
  · intro c st2 h2
    simp [verifyCode, h2]

/-- Witness for C4: issue a code in the empty store and check "x" first. -/
theorem verifyCode_single_attempt_witness :
    (verifyCode "x" (generateVerificationCode 0 stEmpty).2).1 = false ∧
    (verifyCode (generateVerificationCode 0 stEmpty).1
        (verifyCode "x" (generateVerificationCode 0 stEmpty).2).2).1 = false :=
  ⟨(verifyCode_single_attempt 0 "x" stEmpty (by decide)).1,
   (verifyCode_single_attempt 0 "x" stEmpty (by decide)).2.1⟩

/-- C9: no result of `verifyTransaction` or of
`verifyTransactionWithBiometric` ever carries both
`requiresCallVerification = true` and
`requiresBiometricVerification = true`. -/
theorem stepup_flags_mutually_exclusive (t : Transaction) (bd : String) (st : Store) :
    ¬((verifyTransaction t st).requiresCallVerification = true ∧
      (verifyTransaction t st).requiresBiometricVerification = some true) ∧
    ¬((verifyTransactionWithBiometric t bd st).requiresCallVerification = true ∧
      (verifyTransactionWithBiometric t bd st).requiresBiometricVerification = some true) := by
  constructor
  · unfold verifyTransaction
    dsimp only
    repeat' split
    all_goals simp
  · unfold verifyTransactionWithBiometric
    repeat' split
    all_goals simp

/-- C7 counterexample: removing an id that is in no stored record leaves
the list unchanged but returns `true`, not `false` as claimed. -/
theorem removeTrustedDevice_not_found_counterexample :
    (st0.trustedDevices.all fun d => !(d.deviceId == "ghost")) = true ∧
    (removeTrustedDevice "ghost" st0).1 = true ∧
    (removeTrustedDevice "ghost" st0).2.trustedDevices = st0.trustedDevices := by
  decide

/-- C7 amended: removing a device id that no stored record carries leaves
the stored device list unchanged, but the function returns `true`
unconditionally (it never returns `false`). -/
theorem removeTrustedDevice_not_found_noop (deviceId : String) (st : Store)
    (h : ∀ d ∈ st.trustedDevices, d.deviceId ≠ deviceId) :
    (removeTrustedDevice deviceId st).1 = true ∧
    (removeTrustedDevice deviceId st).2.trustedDevices = st.trustedDevices := by
  refine ⟨rfl, ?_⟩
  have hfilter : (getTrustedDevices st).filter
      (fun device => !(device.deviceId == deviceId)) = st.trustedDevices := by
    rw [getTrustedDevices, List.filter_eq_self]
    intro a ha
    simpa using h a ha
  unfold removeTrustedDevice
  split_ifs <;> simp [hfilter]

/-- Witness for C7 amended: removing "ghost" from the one-device store. -/
theorem removeTrustedDevice_not_found_noop_witness :
    (removeTrustedDevice "ghost" st0).1 = true ∧
    (removeTrustedDevice "ghost" st0).2.trustedDevices = st0.trustedDevices :=
  removeTrustedDevice_not_found_noop "ghost" st0 (by decide)


/-- A current-device record with an enrolled face biometric that has not
been verified. -/
def devFace : TrustedDevice :=
  { deviceId := "dev-1"
    platform := "Web"
    deviceName := "Web Browser"
    timestamp := "t0"
    name := "My Device"
    isCurrentDevice := true
    lastVerified := "t0"
    phoneNumber := "5551234567"
    biometricType := some BiometricType.face
    biometricData := some "face-template"
    biometricVerified := none }

/-- A registered store whose current device has a pending face biometric. -/
def stFace : Store :=
  { deviceId := "dev-1"
    platform := "Web"
    deviceName := "Web Browser"
    trustedDevices := [devFace]
    currentDeviceRegistered := true
    verificationCode := none }

/-- C2 counterexample: on a trusted device with an enrolled, not yet
verified face biometric, `verifyTransaction` returns `verified = false`,
not the provisionally verified `verified = true` the claim states. -/
theorem verifyTransaction_biometric_pending_counterexample :
    isCurrentDeviceRegistered stFace = true ∧
    (getCurrentDevice stFace).bind TrustedDevice.biometricType = some BiometricType.face ∧
    jsTruthy ((getCurrentDevice stFace).bind TrustedDevice.biometricVerified) = false ∧
    (verifyTransaction (tx 5) stFace).verified = false := by
  decide

/-- C2 amended: on a trusted device whose record carries a `biometricType`
other than `'none'` and no recorded successful biometric check, every
transaction gets `verified = false`, `riskLevel = 'medium'`, reason
`'Biometric verification required'`, recommendation
`'Complete biometric verification'`, and
`requiresBiometricVerification = true`. -/
theorem verifyTransaction_biometric_pending (t : Transaction) (st : Store)
    (bt : BiometricType) (hbt : bt ≠ BiometricType.bnone)
    (h1 : isCurrentDeviceRegistered st = true)
    (h2 : (getCurrentDevice st).bind TrustedDevice.biometricType = some bt)
    (h3 : jsTruthy ((getCurrentDevice st).bind TrustedDevice.biometricVerified) = false) :
    verifyTransaction t st =
      { verified := false
        riskLevel := "medium"
        reason := "Biometric verification required"
        recommendation := "Complete biometric verification"
        requiresCallVerification := false
        requiresBiometricVerification := some true } := by
  have hne : (getCurrentDevice st).bind TrustedDevice.biometricType
      ≠ some BiometricType.bnone := by
    rw [h2]
    simpa using hbt
  simp [verifyTransaction, h1, hne, h3]

/-- Witness for C2 amended: the pending-face store with a small amount. -/
theorem verifyTransaction_biometric_pending_witness :
    verifyTransaction (tx 5) stFace =
      { verified := false
        riskLevel := "medium"
        reason := "Biometric verification required"
        recommendation := "Complete biometric verification"
        requiresCallVerification := false
        requiresBiometricVerification := some true } :=
  verifyTransaction_biometric_pending (tx 5) stFace BiometricType.face
    (by decide) (by decide) (by decide) (by decide)

/-- C3: on a trusted device with no pending biometric step-up, the
call-verification step-up fires exactly for amounts at or above 10000:
at or above the threshold the result is verified with
`requiresCallVerification = true` and medium risk, strictly below it the
result is verified with low risk and no step-up flag. -/
theorem verifyTransaction_threshold (t : Transaction) (st : Store)
    (h1 : isCurrentDeviceRegistered st = true)
    (h2 : ¬((getCurrentDevice st).bind TrustedDevice.biometricType
            ≠ some BiometricType.bnone ∧
          jsTruthy ((getCurrentDevice st).bind TrustedDevice.biometricVerified) = false)) :
    (HIGH_VALUE_THRESHOLD ≤ t.amount →
      verifyTransaction t st =
        { verified := true
          riskLevel := "medium"
          reason := "High-value transaction requires additional verification"
          recommendation := "Verify via phone call"
          requiresCallVerification := true
          requiresBiometricVerification := none }) ∧
    (t.amount < HIGH_VALUE_THRESHOLD →
      verifyTransaction t st =
        { verified := true
          riskLevel := "low"
          reason := "Trusted device"
          recommendation := "Allow transaction"
          requiresCallVerification := false
          requiresBiometricVerification := none }) ∧
    ((verifyTransaction t st).requiresCallVerification = true ↔
      HIGH_VALUE_THRESHOLD ≤ t.amount) := by
  refine ⟨?_, ?_, ?_⟩
  · intro ha
    simp [verifyTransaction, h1, h2, ha]
  · intro ha
    simp [verifyTransaction, h1, h2, not_le.mpr ha]
  · by_cases ha : HIGH_VALUE_THRESHOLD ≤ t.amount <;>
      simp [verifyTransaction, h1, h2, ha]

/-- Witness for C3: amounts 10000 and 9999.99 on the registered
no-biometric store. -/
theorem verifyTransaction_threshold_witness :
    verifyTransaction (tx 10000) st0 =
      { verified := true
        riskLevel := "medium"
        reason := "High-value transaction requires additional verification"
        recommendation := "Verify via phone call"
        requiresCallVerification := true
        requiresBiometricVerification := none } ∧
    verifyTransaction (tx (9999.99 : ℚ)) st0 =
      { verified := true
        riskLevel := "low"
        reason := "Trusted device"
        recommendation := "Allow transaction"
        requiresCallVerification := false
        requiresBiometricVerification := none } :=
  ⟨(verifyTransaction_threshold (tx 10000) st0 (by decide) (by decide)).1
      (by norm_num [tx, HIGH_VALUE_THRESHOLD]),
   (verifyTransaction_threshold (tx (9999.99 : ℚ)) st0 (by decide) (by decide)).2.1
      (by norm_num [tx, HIGH_VALUE_THRESHOLD])⟩

/-- The device info carried by the sample QR payload. -/
def info5 : DeviceInfo :=
  { deviceId := "dev-9"
    platform := "Android"
    deviceName := "Android Device"
    timestamp := "t9" }

/-- A well-formed QR payload expiring at instant 1000. -/
def q5 : QRCodeData :=
  { deviceInfo := some info5
    sessionToken := "sess"
    expiresAt := some 1000 }

/-- C5 counterexample: a payload presented exactly at its `expiresAt`
instant is accepted — a record is returned and the trust store changes —
whereas the claim says `now ≥ expiresAt` (equality included) is rejected. -/
theorem processQRCodeData_at_expiry_counterexample :
    q5.expiresAt = some 1000 ∧
    ((processQRCodeData (some q5) 1000 "t1" stEmpty).1).isSome = true ∧
    (processQRCodeData (some q5) 1000 "t1" stEmpty).2 ≠ stEmpty := by
  decide

/-- C5 amended: redemption fails — returns no record and leaves the store
unchanged — exactly when the string fails to decode, the decoded payload
has no `deviceInfo`, or its `expiresAt` is strictly earlier than the
current time; equality of the current time with `expiresAt` is accepted. -/
theorem processQRCodeData_failure_characterization (decoded : Option QRCodeData)
    (now : ℤ) (nowStr : String) (st : Store) :
    ((processQRCodeData decoded now nowStr st).1 = none ∧
      (processQRCodeData decoded now nowStr st).2 = st) ↔
    (decoded = none ∨ ∃ d, decoded = some d ∧
      (d.deviceInfo = none ∨ ∃ texp, d.expiresAt = some texp ∧ texp < now)) := by
  rcases decoded with _ | d
  · simp [processQRCodeData, parseQRCodeData]
  · rcases hdi : d.deviceInfo with _ | info
    all_goals rcases hexp : d.expiresAt with _ | texp
    · simp [processQRCodeData, parseQRCodeData, linkDeviceFromQR, hdi, hexp]
    · by_cases hlt : texp < now
      · simp [processQRCodeData, parseQRCodeData, hdi, hexp, hlt]
      · simp [processQRCodeData, parseQRCodeData, linkDeviceFromQR, hdi, hexp, hlt]
    · simp [processQRCodeData, parseQRCodeData, linkDeviceFromQR, hdi, hexp]
    · by_cases hlt : texp < now
      · simp [processQRCodeData, parseQRCodeData, hdi, hexp, hlt]
      · simp [processQRCodeData, parseQRCodeData, linkDeviceFromQR, hdi, hexp, hlt]


/-! ### Lemmas about `addToList` -/

/-- After `addTrustedDevice`, the list always holds an entry with the
device id of the patch. -/
theorem addToList_any_id (p : DevicePatch) (now : String)
    (l : List TrustedDevice) :
    (addToList p now l).any (fun d => d.deviceId == p.deviceId) = true := by
  induction l with
  | nil => simp [addToList, toDevice]
  | cons d ds ih =>
    by_cases h : (d.deviceId == p.deviceId) = true
    · simp [addToList, h, mergeDevice]
    · have hc : (d.deviceId == p.deviceId) = false := by simpa using h
      simp [addToList, hc, ih]

/-- After `addTrustedDevice`, the list holds an entry with the device id
of the patch whose `lastVerified` is the write time (assuming the caller put
that time into the patch, as every caller does). -/
theorem addToList_any_lastVerified (p : DevicePatch) (now : String)
    (l : List TrustedDevice) (hl : p.lastVerified = now) :
    (addToList p now l).any
      (fun d => d.deviceId == p.deviceId && d.lastVerified == now) = true := by
  induction l with
  | nil => simp [addToList, toDevice, hl]
  | cons d ds ih =>
    by_cases h : (d.deviceId == p.deviceId) = true
    · simp [addToList, h, mergeDevice]
    · have hc : (d.deviceId == p.deviceId) = false := by simpa using h
      simp [addToList, hc, ih]

/-- `addTrustedDevice` updates the first matching entry in place and
appends otherwise, so the number of entries carrying the device id of the patch is
one after the write when it was at most one before. -/
theorem addToList_countP_eq_one (p : DevicePatch) (now : String)
    (l : List TrustedDevice)
    (h : l.countP (fun d => d.deviceId == p.deviceId) ≤ 1) :
    (addToList p now l).countP (fun d => d.deviceId == p.deviceId) = 1 := by
  induction l with
  | nil => simp [addToList, toDevice, List.countP_cons]
  | cons d ds ih =>
    by_cases hd : (d.deviceId == p.deviceId) = true
    · have hds : ds.countP (fun d => d.deviceId == p.deviceId) = 0 := by
        have hh := h
        simp only [List.countP_cons, hd, if_true] at hh
        omega
      simp [addToList, hd, mergeDevice, List.countP_cons, hds]
    · have hc : (d.deviceId == p.deviceId) = false := by simpa using hd
      have hds : ds.countP (fun d => d.deviceId == p.deviceId) ≤ 1 := by
        have hh := h
        simp only [List.countP_cons, hc, if_false] at hh
        omega
      simp [addToList, hc, List.countP_cons, ih hds]

/-- The result of `find?` over an updated list is either the pushed object
or a spread-merge of some previous entry with the patch. -/
theorem addToList_find? (p : DevicePatch) (now : String)
    (l : List TrustedDevice) :
    ∃ e, (addToList p now l).find? (fun d => d.deviceId == p.deviceId) = some e ∧
      (e = toDevice p ∨ ∃ old, e = mergeDevice old p now) := by
  induction l with
  | nil => exact ⟨toDevice p, by simp [addToList, toDevice], Or.inl rfl⟩
  | cons d ds ih =>
    by_cases h : (d.deviceId == p.deviceId) = true
    · refine ⟨mergeDevice d p now, ?_, Or.inr ⟨d, rfl⟩⟩
      simp [addToList, h, mergeDevice, List.find?_cons]
    · have hc : (d.deviceId == p.deviceId) = false := by simpa using h
      obtain ⟨e, he, hform⟩ := ih
      exact ⟨e, by simp [addToList, hc, List.find?_cons, he], hform⟩

/-! ### C6, C8, C10 -/

/-- C6 counterexample: a 3-digit phone number — which fails the 10-digit
rule — is accepted by `registerCurrentDevice` without any error, and the
created record stores it verbatim. -/
theorem registerCurrentDevice_short_phone_counterexample :
    (stripNonDigits "123").length < 10 ∧
    ((registerCurrentDevice "My Phone" (some "123") "t1" stEmpty).2.trustedDevices.map
        TrustedDevice.phoneNumber) = ["123"] := by
  decide

/-- C6 amended: `registerCurrentDevice` performs no phone-number
validation — even for a number with fewer than 10 digits it stores the
number verbatim (empty when absent) and writes the record; the
10-digit minimum check lives in `validatePhoneNumber` of the registration UI,
which returns `false` for such numbers so the UI never calls the SDK. -/
theorem registerCurrentDevice_no_validation (name phone now : String) (st : Store)
    (h : (stripNonDigits phone).length < 10) :
    validatePhoneNumber phone = false ∧
    (registerCurrentDevice name (some phone) now st).1.phoneNumber
      = jsOrStr (some phone) "" ∧
    ((registerCurrentDevice name (some phone) now st).2.trustedDevices.any
        (fun d => d.deviceId == st.deviceId)) = true := by
  refine ⟨?_, rfl, ?_⟩
  · unfold validatePhoneNumber
    by_cases hp : (phone == "") = true
    · simp [hp]
    · have hc : (phone == "") = false := by simpa using hp
      simp [hc, h]
  · exact addToList_any_id (registerPatch name (some phone) now st) now st.trustedDevices

/-- Witness for C6 amended: the phone number "123". -/
theorem registerCurrentDevice_no_validation_witness :
    validatePhoneNumber "123" = false ∧
    (registerCurrentDevice "My Phone" (some "123") "t1" stEmpty).1.phoneNumber
      = jsOrStr (some "123") "" ∧
    ((registerCurrentDevice "My Phone" (some "123") "t1" stEmpty).2.trustedDevices.any
        (fun d => d.deviceId == stEmpty.deviceId)) = true :=
  registerCurrentDevice_no_validation "My Phone" "123" "t1" stEmpty (by decide)

/-- C8: registering the current device twice keeps a single entry for its
device id (assuming the store invariant of at most one entry per id held
before), and the surviving entry carries the `lastVerified`
time of the second call and the unchanged device id. -/
theorem registerCurrentDevice_idempotent (name1 name2 : String)
    (phone1 phone2 : Option String) (t1 t2 : String) (st : Store)
    (h : st.trustedDevices.countP (fun d => d.deviceId == st.deviceId) ≤ 1) :
    ((registerCurrentDevice name2 phone2 t2
        (registerCurrentDevice name1 phone1 t1 st).2).2.trustedDevices.countP
      (fun d => d.deviceId == st.deviceId)) = 1 ∧
    ((registerCurrentDevice name2 phone2 t2
        (registerCurrentDevice name1 phone1 t1 st).2).2.trustedDevices.any
      (fun d => d.deviceId == st.deviceId && d.lastVerified == t2)) = true := by
  have hc1 : (registerCurrentDevice name1 phone1 t1 st).2.trustedDevices.countP
      (fun d => d.deviceId == st.deviceId) = 1 :=
    addToList_countP_eq_one (registerPatch name1 phone1 t1 st) t1 st.trustedDevices h
  constructor
  · exact addToList_countP_eq_one
      (registerPatch name2 phone2 t2 (registerCurrentDevice name1 phone1 t1 st).2) t2
      (registerCurrentDevice name1 phone1 t1 st).2.trustedDevices (le_of_eq hc1)
  · exact addToList_any_lastVerified
      (registerPatch name2 phone2 t2 (registerCurrentDevice name1 phone1 t1 st).2) t2
      (registerCurrentDevice name1 phone1 t1 st).2.trustedDevices rfl

/-- Witness for C8: two registrations starting from the empty store. -/
theorem registerCurrentDevice_idempotent_witness :
    ((registerCurrentDevice "B" none "t2"
        (registerCurrentDevice "A" none "t1" stEmpty).2).2.trustedDevices.countP
      (fun d => d.deviceId == stEmpty.deviceId)) = 1 ∧
    ((registerCurrentDevice "B" none "t2"
        (registerCurrentDevice "A" none "t1" stEmpty).2).2.trustedDevices.any
      (fun d => d.deviceId == stEmpty.deviceId && d.lastVerified == "t2")) = true :=
  registerCurrentDevice_idempotent "A" "B" none none "t1" "t2" stEmpty (by decide)

/-- C10: when the record of the current device has an enrolled biometric,
calling `registerCurrentDevice` again overwrites the stored
`biometricType` with the enum value none and `biometricData` with `null`: the
prior enrollment is silently erased. -/
theorem registerCurrentDevice_erases_biometric (name : String)
    (phone : Option String) (now : String) (st : Store) (d0 : TrustedDevice)
    (h1 : getCurrentDevice st = some d0)
    (h2 : d0.biometricType ≠ some BiometricType.bnone)
    (h3 : d0.biometricData ≠ none) :
    ∃ d, getCurrentDevice (registerCurrentDevice name phone now st).2 = some d ∧
      d.biometricType = some BiometricType.bnone ∧ d.biometricData = none := by
  obtain ⟨e, he, hform⟩ := addToList_find? (registerPatch name phone now st) now
    st.trustedDevices
  refine ⟨e, he, ?_, ?_⟩
  · rcases hform with rfl | ⟨old, rfl⟩
    · rfl
    · rfl
  · rcases hform with rfl | ⟨old, rfl⟩
    · rfl
    · rfl

/-- Witness for C10: re-registering over the face-enrolled store. -/
theorem registerCurrentDevice_erases_biometric_witness :
    ∃ d, getCurrentDevice (registerCurrentDevice "New Name" none "t2" stFace).2 = some d ∧
      d.biometricType = some BiometricType.bnone ∧ d.biometricData = none :=
  registerCurrentDevice_erases_biometric "New Name" none "t2" stFace devFace
    (by decide) (by decide) (by decide)

end TrustFlow
